import Mathlib

/-!
Verification of the `ref-275` voting dapp (a Yew/WASM client that composes a
conviction vote, obtains a signature from a browser-resident signer, assembles
the signed extrinsic and submits it).

The development shallowly embeds the two relevant source files:

* `src/services.rs` — the JSON signing payload handed to the browser signer
  (`extension_signature_for_extrinsic`), with the hex / SCALE renderings of the
  individual fields.
* `src/vote.rs` — the `VoteComponent` session state machine (`SigningStage`,
  `SubmittingStage`, `Message`, `update`), together with a small-step relation
  that additionally tracks which asynchronous tasks are in flight and which
  messages the rendered view can emit in each stage.

Machine integers are modelled as `Nat` with explicit `% 2 ^ w` where wrap-around
matters; byte strings are `List Nat` of values `< 256`; fallible operations
return `Option` (where the Rust code `unwrap`s, a `none` result models the
panic); `anyhow::Error` values are modelled by their rendered `String`.
-/

namespace Ref275

/-! ## Bytes and hex rendering -/

/-- Lower-case hex digit for a nibble, as produced by the Rust `hex` crate. -/
def hex_digit_char (k : Nat) : Char :=
  if k < 10 then Char.ofNat (48 + k) else Char.ofNat (87 + k)

/-- Characters of `hex::encode`: two lower-case hex digits per byte,
high nibble first. -/
def hex_chars : List Nat → List Char
  | [] => []
  | b :: bs => hex_digit_char (b / 16 % 16) :: hex_digit_char (b % 16) :: hex_chars bs

/-- `to_hex` of `services.rs`: `format!("0x{}", hex::encode(bytes))`. -/
def to_hex (bytes : List Nat) : String :=
  "0x" ++ String.mk (hex_chars bytes)

/-- Recognizer for the characters `hex::encode` may produce (`0`-`9`, `a`-`f`). -/
def is_hex_digit (c : Char) : Bool :=
  (48 ≤ c.toNat && c.toNat ≤ 57) || (97 ≤ c.toNat && c.toNat ≤ 102)

/-- `u32::to_be_bytes`: the four big-endian bytes of a 32-bit integer. -/
def u32_be_bytes (n : Nat) : List Nat :=
  [n / 2 ^ 24 % 256, n / 2 ^ 16 % 256, n / 2 ^ 8 % 256, n % 256]

/-- `u64::to_be_bytes`: the eight big-endian bytes of a 64-bit integer. -/
def u64_be_bytes (n : Nat) : List Nat :=
  [n / 2 ^ 56 % 256, n / 2 ^ 48 % 256, n / 2 ^ 40 % 256, n / 2 ^ 32 % 256,
   n / 2 ^ 24 % 256, n / 2 ^ 16 % 256, n / 2 ^ 8 % 256, n % 256]

/-- Big-endian value of a byte list (most significant byte first). -/
def be_value (bs : List Nat) : Nat :=
  bs.foldl (fun acc b => acc * 256 + b) 0

/-- Minimal little-endian byte representation of a natural number. -/
def nat_le_bytes : Nat → List Nat
  | 0 => []
  | n + 1 => (n + 1) % 256 :: nat_le_bytes ((n + 1) / 256)
decreasing_by exact Nat.div_lt_self (Nat.succ_pos n) (by decide)

/-- SCALE compact encoding of a `u128`, as produced by
`subxt::ext::codec::Compact(n).encode()`. -/
def compact_u128_encode (n : Nat) : List Nat :=
  if n < 2 ^ 6 then [n * 4 % 256]
  else if n < 2 ^ 14 then [(n * 4 + 1) % 256, (n * 4 + 1) / 256 % 256]
  else if n < 2 ^ 30 then
    [(n * 4 + 2) % 256, (n * 4 + 2) / 256 % 256,
     (n * 4 + 2) / 2 ^ 16 % 256, (n * 4 + 2) / 2 ^ 24 % 256]
  else
    (((nat_le_bytes n).length - 4) * 4 + 3) :: nat_le_bytes n

/-- SCALE encoding of an `H256` hash is its raw 32 bytes. -/
def h256_encode (h : List Nat) : List Nat := h

/-- Transaction era. `services.rs` only ever constructs `Era::Immortal`
(the deployment pins an immortal era), so the mortal variant is not modelled. -/
inductive Era
  | immortal
deriving DecidableEq

/-- SCALE encoding of an `Era`: `Era::Immortal` encodes as the single byte `0`. -/
def era_encode : Era → List Nat
  | Era.immortal => [0]

/-! ## Chain client facts and the signing payload (`services.rs`) -/

/-- The chain facts the component reads from the connected
`OnlineClient<PolkadotConfig>`: genesis hash, runtime versions, and the
identifiers of the signed extensions declared by the current metadata. -/
structure OnlineClient where
  genesis_hash : List Nat
  spec_version : Nat
  transaction_version : Nat
  signed_extensions : List String
deriving DecidableEq

/-- A JSON value as used in the signing payload: every payload field is a
string, a number, or an array of strings. -/
inductive JsonVal
  | str (s : String)
  | num (n : Nat)
  | arr (xs : List String)
deriving DecidableEq

/-- The JSON signing payload built by `extension_signature_for_extrinsic` in
`services.rs`, as the ordered association list written by the `json!` literal.
Mirrors the source exactly: the integer fields (spec version, transaction
version, nonce) are rendered as hex of their big-endian bytes, the remaining
fields are SCALE-encoded before hex rendering, `blockNumber` is the literal
`"0x00000000"`, the mortality checkpoint (`blockHash`) reuses the genesis hash,
and `version` is the number `4`. -/
def signing_payload (call_data : List Nat) (api : OnlineClient)
    (account_nonce : Nat) (account_address : String) : List (String × JsonVal) :=
  let genesis_hash := to_hex (h256_encode api.genesis_hash)
  let spec_version := to_hex (u32_be_bytes api.spec_version)
  let transaction_version := to_hex (u32_be_bytes api.transaction_version)
  let nonce := to_hex (u64_be_bytes account_nonce)
  let mortality_checkpoint := to_hex (h256_encode api.genesis_hash)
  let era := to_hex (era_encode Era.immortal)
  let method := to_hex call_data
  let signed_extensions := api.signed_extensions
  let tip := to_hex (compact_u128_encode 0)
  [("specVersion", JsonVal.str spec_version),
   ("transactionVersion", JsonVal.str transaction_version),
   ("address", JsonVal.str account_address),
   ("blockHash", JsonVal.str mortality_checkpoint),
   ("blockNumber", JsonVal.str "0x00000000"),
   ("era", JsonVal.str era),
   ("genesisHash", JsonVal.str genesis_hash),
   ("method", JsonVal.str method),
   ("nonce", JsonVal.str nonce),
   ("signedExtensions", JsonVal.arr signed_extensions),
   ("tip", JsonVal.str tip),
   ("version", JsonVal.num 4)]

/-! ## Data model of `vote.rs` -/

/-- DTO for a browser-extension account (`services.rs`): account name,
originating extension, declared signature type (e.g. `"sr25519"`), and the
ss58-formatted address. -/
structure Account where
  name : String
  source : String
  ty : String
  address : String
deriving DecidableEq

/-- Conviction multipliers of `vote.rs`. -/
inductive Conviction
  | lock1X
  | lock2X
  | lock3X
  | lock4X
  | lock5X
  | lock6X
deriving DecidableEq

/-- `Conviction::to_value`: the constants `LOCK1X = 129` … `LOCK6X = 134`
(aye bit `0x80` plus conviction). -/
def Conviction.to_value : Conviction → Nat
  | lock1X => 129
  | lock2X => 130
  | lock3X => 131
  | lock4X => 132
  | lock5X => 133
  | lock6X => 134

/-- Encoded call data. The SCALE byte encoding of a call is produced by
`encode_call_data` against the runtime metadata (the `kusama_metadata.scale`
artifact, which is not part of the sources); since that encoding is
deterministic and injective in the call's arguments, call-data byte vectors are
modelled by the call description itself, plus `empty` for the initial `vec![]`. -/
inductive CallBytes
  | empty
  | voteCall (poll_index : Nat) (vote : Nat) (balance : Nat)
  | remarkCall (message : String)
deriving DecidableEq

/-- `subxt::utils::MultiSignature` (variant indices 0, 1, 2 in SCALE order). -/
inductive MultiSignature
  | ed25519 (bytes : List Nat)
  | sr25519 (bytes : List Nat)
  | ecdsa (bytes : List Nat)
deriving DecidableEq

/-- Name of the signature scheme of a `MultiSignature`, for comparison with the
`ty` declared by an `Account`. -/
def MultiSignature.scheme : MultiSignature → String
  | ed25519 _ => "ed25519"
  | sr25519 _ => "sr25519"
  | ecdsa _ => "ecdsa"

/-- SCALE encoding of a `MultiSignature`: variant index byte, then the raw
signature bytes. -/
def multi_signature_encode : MultiSignature → List Nat
  | MultiSignature.ed25519 b => 0 :: b
  | MultiSignature.sr25519 b => 1 :: b
  | MultiSignature.ecdsa b => 2 :: b

/-- SCALE decoding of a `MultiSignature` from a byte stream
(`MultiSignature::decode(&mut &signature[..])`): variant index byte `0`/`1`
followed by 64 signature bytes, or `2` followed by 65; trailing bytes are
ignored, exactly as decoding from a mutable slice does. -/
def decode_multi_signature (bytes : List Nat) : Option MultiSignature :=
  match bytes with
  | 0 :: rest => if 64 ≤ rest.length then some (MultiSignature.ed25519 (rest.take 64)) else none
  | 1 :: rest => if 64 ≤ rest.length then some (MultiSignature.sr25519 (rest.take 64)) else none
  | 2 :: rest => if 65 ≤ rest.length then some (MultiSignature.ecdsa (rest.take 65)) else none
  | _ => none

/-- The partially-signed extrinsic produced by
`create_partial_signed_with_nonce(&vote_call, account_nonce, Default::default())`:
the call and the nonce (the default params pin tip 0 and the configured era). -/
structure PartialExtrinsic where
  call : CallBytes
  nonce : Nat
deriving DecidableEq

/-- `SubmittableExtrinsic`: the signed extrinsic assembled by
`sign_with_address_and_signature` from the partial extrinsic, the signer's
address (the parsed `AccountId32` is modelled by the address string itself) and
the decoded signature. -/
structure SubmittableExtrinsic where
  unsigned_part : PartialExtrinsic
  address : String
  signature : MultiSignature
deriving DecidableEq

/-- `partial_signed.sign_with_address_and_signature(&account_id.into(), &multi_signature)` —
total in the source (no `Result`): it only combines its inputs. -/
def sign_with_address_and_signature (p : PartialExtrinsic) (address : String)
    (signature : MultiSignature) : SubmittableExtrinsic :=
  ⟨p, address, signature⟩

/-- Wire bytes of a signed extrinsic (`signed_extrinsic.encoded()`). The exact
SCALE layout is produced inside the subxt library, outside this repository's
sources; the component only displays its hex rendering and never inspects the
bytes, so they are modelled as a fixed serialization of the extrinsic's parts. -/
def SubmittableExtrinsic.wire_bytes (e : SubmittableExtrinsic) : List Nat :=
  multi_signature_encode e.signature ++ u64_be_bytes e.unsigned_part.nonce

/-- `node_runtime::system::events::ExtrinsicSuccess` (its `dispatch_info`
payload abstracted to a number). -/
structure ExtrinsicSuccess where
  dispatch_info : Nat
deriving DecidableEq

/-- An event found in the finalized block's event list: either the
`System.ExtrinsicSuccess` event the pipeline looks for, or any other event. -/
inductive ChainEvent
  | extrinsicSuccess (event : ExtrinsicSuccess)
  | other (name : String)
deriving DecidableEq

/-- Whether an event decodes as `System.ExtrinsicSuccess`. -/
def ChainEvent.is_success : ChainEvent → Bool
  | extrinsicSuccess _ => true
  | other _ => false

/-- `events.find_first::<ExtrinsicSuccess>()`: the first event of the finalized
block that decodes as `System.ExtrinsicSuccess`, if any. -/
def find_first_extrinsic_success : List ChainEvent → Option ExtrinsicSuccess
  | [] => none
  | ChainEvent.extrinsicSuccess ev :: _ => some ev
  | ChainEvent.other _ :: es => find_first_extrinsic_success es

/-- Event-extraction step of `submit_wait_finalized_and_get_extrinsic_success_event`,
applied to the events of the finalized block: the first
`System.ExtrinsicSuccess` event, or the error
`"ExtrinsicSuccess not found in events"` when none is present
(`success.ok_or(anyhow!(...))`). -/
def extrinsic_success_from_finalized_events (events : List ChainEvent) :
    Except String ExtrinsicSuccess :=
  match find_first_extrinsic_success events with
  | some ev => Except.ok ev
  | none => Except.error "ExtrinsicSuccess not found in events"

/-! ## The session state machine (`VoteComponent`) -/

/-- `SubmittingStage` of `vote.rs`. -/
inductive SubmittingStage
  | initial (signed_extrinsic : SubmittableExtrinsic)
  | submitting
  | success (remark_event : ExtrinsicSuccess)
  | error (e : String)
deriving DecidableEq

/-- `SigningStage` of `vote.rs`. -/
inductive SigningStage
  | error (e : String)
  | creatingOnlineClient
  | enterMessage
  | enterBalance
  | requestingAccounts
  | selectAccount (accounts : List Account)
  | signing (account : Account)
  | signingSuccess (signer_account : Account) (signature : MultiSignature)
      (signed_extrinsic_hex : String) (submitting_stage : SubmittingStage)
deriving DecidableEq

/-- The mutable fields of `VoteComponent` (`AttrValue` entries of
`finalized_blocks` are strings). -/
structure VoteState where
  message : String
  conviction : Conviction
  balance : Nat
  remark_call_bytes : CallBytes
  vote_call_bytes : CallBytes
  online_client : Option OnlineClient
  stage : SigningStage
  finalized_blocks : List String
deriving DecidableEq

/-- `Message` of `vote.rs` (`anyhow::Error` payloads rendered as strings). -/
inductive Msg
  | error (e : String)
  | onlineClientCreated (client : OnlineClient)
  | changeMessage (s : String)
  | changeBalance (s : String)
  | changeConviction (c : Conviction)
  | requestAccounts
  | receivedAccounts (accounts : List Account)
  | signWithAccount (i : Nat)
  | receivedSignature (signature : MultiSignature) (signed_extrinsic : SubmittableExtrinsic)
  | submitSigned
  | extrinsicFinalized (remark_event : ExtrinsicSuccess)
  | extrinsicFailed (e : String)
  | subscribeFinalizedBlock
  | pushFinalizedBlock (b : String)
deriving DecidableEq

/-- Tail of the asynchronous signing task in `Message::SignWithAccount`, from
the point where the browser extension has returned `signature` bytes: decode
them as a `MultiSignature` (failure yields the collapsed error message
`"MultiSignature Decoding"`), then assemble the signed extrinsic and return it
via `Message::ReceivedSignature`. No comparison of the signature's scheme with
the account's declared `ty` is performed anywhere on this path. -/
def signing_task_finish (account_id : String) (p : PartialExtrinsic)
    (signature_bytes : List Nat) : Msg :=
  match decode_multi_signature signature_bytes with
  | none => Msg.error "MultiSignature Decoding"
  | some ms => Msg.receivedSignature ms (sign_with_address_and_signature p account_id ms)

/-- The asynchronous tasks the component can have in flight
(each `ctx.link().send_future(...)` call dispatches one; a task completes by
delivering exactly one `Msg`). -/
inductive Task
  | createClient
  | getAccounts
  | signingFor (account : Account)
  | submitExt (signed_extrinsic : SubmittableExtrinsic)
  | subscribeBlocks
deriving DecidableEq

/-- Accumulate the decimal value of a character list; `none` on the first
non-digit character. -/
def parse_digits_aux (acc : Nat) : List Char → Option Nat
  | [] => some acc
  | c :: cs =>
    if 48 ≤ c.toNat && c.toNat ≤ 57 then parse_digits_aux (acc * 10 + (c.toNat - 48)) cs
    else none

/-- `u128::from_str` as used by `balance.parse::<u128>()`: an optional leading
`+`, then one or more ASCII digits, value below `2 ^ 128`. -/
def parse_u128 (s : String) : Option Nat :=
  let cs :=
    match s.data with
    | '+' :: rest => rest
    | cs => cs
  match cs with
  | [] => none
  | _ =>
    match parse_digits_aux 0 cs with
    | none => none
    | some v => if v < 2 ^ 128 then some v else none

/-- `VoteComponent::set_vote`: re-encode the conviction vote for referendum 275
with the balance scaled by `10^12` (u128 arithmetic, so modulo `2 ^ 128`), and
store the new balance and conviction. `none` models the panic of
`self.online_client.as_ref().unwrap()` when no client exists. -/
def set_vote (s : VoteState) (balance : Nat) (conviction : Conviction) : Option VoteState :=
  match s.online_client with
  | none => none
  | some _ =>
    some { s with
      vote_call_bytes :=
        CallBytes.voteCall 275 conviction.to_value (balance * 1000000000000 % 2 ^ 128),
      balance := balance,
      conviction := conviction }

/-- `VoteComponent::set_message`: re-encode the `System.remark` call for the
message and store it. `none` models the panic of
`self.online_client.as_ref().unwrap()` when no client exists. -/
def set_message (s : VoteState) (message : String) : Option VoteState :=
  match s.online_client with
  | none => none
  | some _ =>
    some { s with remark_call_bytes := CallBytes.remarkCall message, message := message }

/-- `VoteComponent::update`. The result is the new state together with the
tasks dispatched by the handler; `none` models a panic (the `unwrap` of a
missing list entry or of a missing online client — the ss58 parsing of an
account address, also `unwrap`ped in the source, is treated as always
succeeding since addresses originate from the extension). -/
def update (s : VoteState) (m : Msg) : Option (VoteState × List Task) :=
  match m with
  | Msg.onlineClientCreated client =>
    (set_vote { s with online_client := some client, stage := SigningStage.enterBalance }
        1 Conviction.lock1X).map (fun s2 => (s2, []))
  | Msg.changeMessage message => (set_message s message).map (fun s2 => (s2, []))
  | Msg.changeBalance balance =>
    (set_vote s ((parse_u128 balance).getD 100) s.conviction).map (fun s2 => (s2, []))
  | Msg.changeConviction conviction =>
    (set_vote s s.balance conviction).map (fun s2 => (s2, []))
  | Msg.requestAccounts =>
    some ({ s with stage := SigningStage.requestingAccounts }, [Task.getAccounts])
  | Msg.receivedAccounts accounts =>
    some ({ s with stage := SigningStage.selectAccount accounts }, [])
  | Msg.error e => some ({ s with stage := SigningStage.error e }, [])
  | Msg.signWithAccount i =>
    match s.stage with
    | SigningStage.selectAccount accounts =>
      match accounts[i]? with
      | none => none
      | some account =>
        match s.online_client with
        | none => none
        | some _ =>
          some ({ s with stage := SigningStage.signing account }, [Task.signingFor account])
    | _ => some (s, [])
  | Msg.receivedSignature signature signed_extrinsic =>
    match s.stage with
    | SigningStage.signing account =>
      some ({ s with stage := (SigningStage.signingSuccess account signature
                (to_hex signed_extrinsic.wire_bytes)
                (SubmittingStage.initial signed_extrinsic)) }, [])
    | _ => some (s, [])
  | Msg.submitSigned =>
    match s.stage with
    | SigningStage.signingSuccess account signature hexstr
        (SubmittingStage.initial signed_extrinsic) =>
      some ({ s with stage := (SigningStage.signingSuccess account signature hexstr
                SubmittingStage.submitting) }, [Task.submitExt signed_extrinsic])
    | _ => some (s, [])
  | Msg.extrinsicFinalized remark_event =>
    match s.stage with
    | SigningStage.signingSuccess account signature hexstr _ =>
      some ({ s with stage := (SigningStage.signingSuccess account signature hexstr
                (SubmittingStage.success remark_event)) }, [])
    | _ => some (s, [])
  | Msg.extrinsicFailed e =>
    match s.stage with
    | SigningStage.signingSuccess account signature hexstr _ =>
      some ({ s with stage := (SigningStage.signingSuccess account signature hexstr
                (SubmittingStage.error e)) }, [])
    | _ => some (s, [])
  | Msg.pushFinalizedBlock block =>
    let blocks := block :: s.finalized_blocks
    some ({ s with finalized_blocks := if blocks.length > 1 then blocks.take 1 else blocks }, [])
  | Msg.subscribeFinalizedBlock => some (s, [Task.subscribeBlocks])

/-! ## The message-step relation

A step is either a user-input message that the currently rendered view can emit
(`view` in `vote.rs` creates the corresponding callback only in the stages
below), or the completion message of an asynchronous task that is in flight.
The subscribe-finalized-blocks button is commented out of the rendered html in
the source (`// {finalized_block_html}`), so `SubscribeFinalizedBlock` is never
emitted. -/

/-- Which messages the rendered view can emit in a given state, read off
`VoteComponent::view`: the balance input and conviction buttons exist in
`EnterBalance`, the message input in `EnterMessage`, the request-accounts
button in both, one sign button per listed account in `SelectAccount`, and the
submit button only in `SigningSuccess` with `SubmittingStage::Initial`. -/
def viewEnabled (s : VoteState) : Msg → Bool
  | Msg.changeMessage _ =>
    match s.stage with
    | SigningStage.enterMessage => true
    | _ => false
  | Msg.changeBalance _ =>
    match s.stage with
    | SigningStage.enterBalance => true
    | _ => false
  | Msg.changeConviction _ =>
    match s.stage with
    | SigningStage.enterBalance => true
    | _ => false
  | Msg.requestAccounts =>
    match s.stage with
    | SigningStage.enterMessage => true
    | SigningStage.enterBalance => true
    | _ => false
  | Msg.signWithAccount i =>
    match s.stage with
    | SigningStage.selectAccount accounts => decide (i < accounts.length)
    | _ => false
  | Msg.submitSigned =>
    match s.stage with
    | SigningStage.signingSuccess _ _ _ (SubmittingStage.initial _) => true
    | _ => false
  | _ => false

/-- Which completion messages each in-flight task can deliver (each
`send_future` resolves to exactly one message). -/
def taskMsg : Task → Msg → Bool
  | Task.createClient, Msg.onlineClientCreated _ => true
  | Task.createClient, Msg.error _ => true
  | Task.getAccounts, Msg.receivedAccounts _ => true
  | Task.getAccounts, Msg.error _ => true
  | Task.signingFor _, Msg.receivedSignature _ _ => true
  | Task.signingFor _, Msg.error _ => true
  | Task.submitExt _, Msg.extrinsicFinalized _ => true
  | Task.submitExt _, Msg.extrinsicFailed _ => true
  | Task.subscribeBlocks, Msg.pushFinalizedBlock _ => true
  | Task.subscribeBlocks, Msg.error _ => true
  | _, _ => false

/-- The state built by `VoteComponent::create`. -/
def initState : VoteState :=
  { message := "",
    conviction := Conviction.lock1X,
    balance := 100,
    remark_call_bytes := CallBytes.empty,
    vote_call_bytes := CallBytes.empty,
    online_client := none,
    stage := SigningStage.creatingOnlineClient,
    finalized_blocks := [] }

/-- A configuration: the component's state plus the in-flight tasks. -/
structure Config where
  st : VoteState
  tasks : List Task
deriving DecidableEq

/-- The initial configuration: `create` also dispatches the
client-creation future. -/
def initConfig : Config := ⟨initState, [Task.createClient]⟩

/-- One step of the session: deliver a view-enabled user message, or the
completion message of an in-flight task (which is thereby consumed); in either
case the handler's dispatched tasks join the in-flight set. -/
inductive Step (c : Config) : Config → Prop
  | user (m : Msg) (s2 : VoteState) (ts : List Task)
      (hview : viewEnabled c.st m = true)
      (hupd : update c.st m = some (s2, ts)) :
      Step c ⟨s2, c.tasks ++ ts⟩
  | task (t : Task) (m : Msg) (s2 : VoteState) (ts : List Task)
      (hmem : t ∈ c.tasks) (hmsg : taskMsg t m = true)
      (hupd : update c.st m = some (s2, ts)) :
      Step c ⟨s2, c.tasks.erase t ++ ts⟩

/-- Configurations reachable from the initial configuration. -/
inductive Reachable : Config → Prop
  | init : Reachable initConfig
  | step {c c2 : Config} : Reachable c → Step c c2 → Reachable c2

/-- The reachability invariant of the session: the stage determines whether a
client exists and exactly which tasks are in flight. -/
def Inv (c : Config) : Prop :=
  match c.st.stage with
  | SigningStage.creatingOnlineClient =>
    c.st.online_client = none ∧ c.tasks = [Task.createClient]
  | SigningStage.error _ => c.tasks = []
  | SigningStage.enterMessage => False
  | SigningStage.enterBalance => c.st.online_client.isSome = true ∧ c.tasks = []
  | SigningStage.requestingAccounts =>
    c.st.online_client.isSome = true ∧ c.tasks = [Task.getAccounts]
  | SigningStage.selectAccount _ => c.st.online_client.isSome = true ∧ c.tasks = []
  | SigningStage.signing a =>
    c.st.online_client.isSome = true ∧ c.tasks = [Task.signingFor a]
  | SigningStage.signingSuccess _ _ _ sub =>
    c.st.online_client.isSome = true ∧
    match sub with
    | SubmittingStage.initial _ => c.tasks = []
    | SubmittingStage.submitting => ∃ e, c.tasks = [Task.submitExt e]
    | SubmittingStage.success _ => c.tasks = []
    | SubmittingStage.error _ => c.tasks = []

/-- A state whose submitting stage has moved past `Initial` (to `Submitting`,
`Success` or `Error`). -/
def past_initial (s : VoteState) : Prop :=
  ∃ a sig hexstr sub, s.stage = SigningStage.signingSuccess a sig hexstr sub ∧
    ∀ e, sub ≠ SubmittingStage.initial e

/-- The three messages whose handlers re-encode a call against the chain
client's metadata (`set_vote` / `set_message`). -/
def client_dependent_change : Msg → Bool
  | Msg.changeMessage _ => true
  | Msg.changeBalance _ => true
  | Msg.changeConviction _ => true
  | _ => false

/-! ## A concrete session trace (used to instantiate the theorems) -/

/-- A sample chain client. -/
def client0 : OnlineClient :=
  ⟨List.replicate 32 0, 1002000, 26, ["CheckNonce", "CheckMortality"]⟩

/-- A sample extension account declaring an sr25519 key. -/
def acct0 : Account := ⟨"Alice", "polkadot-js", "sr25519", "5GrwAlice"⟩

/-- A sample sr25519 signature. -/
def sig0 : MultiSignature := MultiSignature.sr25519 (List.replicate 64 1)

/-- A sample partially-signed extrinsic (vote call, nonce 5). -/
def pex0 : PartialExtrinsic := ⟨CallBytes.voteCall 275 129 1000000000000, 5⟩

/-- The signed extrinsic assembled from `pex0`, `acct0` and `sig0`. -/
def ext0 : SubmittableExtrinsic := ⟨pex0, acct0.address, sig0⟩

/-- A sample `ExtrinsicSuccess` event payload. -/
def ev0 : ExtrinsicSuccess := ⟨0⟩

/-- State after the online client was created. -/
def st1 : VoteState :=
  { message := "",
    conviction := Conviction.lock1X,
    balance := 1,
    remark_call_bytes := CallBytes.empty,
    vote_call_bytes := CallBytes.voteCall 275 129 1000000000000,
    online_client := some client0,
    stage := SigningStage.enterBalance,
    finalized_blocks := [] }

/-- State while the account list is being fetched. -/
def st2 : VoteState := { st1 with stage := SigningStage.requestingAccounts }

/-- State offering the fetched account for selection. -/
def st3 : VoteState := { st1 with stage := SigningStage.selectAccount [acct0] }

/-- State while the signature for `acct0` is requested. -/
def st4 : VoteState := { st1 with stage := SigningStage.signing acct0 }

/-- State after the signature arrived, before submission. -/
def st5 : VoteState :=
  { st1 with stage := (SigningStage.signingSuccess acct0 sig0 (to_hex ext0.wire_bytes)
      (SubmittingStage.initial ext0)) }

/-- State while the extrinsic is submitted. -/
def st6 : VoteState :=
  { st1 with stage := (SigningStage.signingSuccess acct0 sig0 (to_hex ext0.wire_bytes)
      SubmittingStage.submitting) }

/-- State after the extrinsic was finalized with a success event. -/
def st7 : VoteState :=
  { st1 with stage := (SigningStage.signingSuccess acct0 sig0 (to_hex ext0.wire_bytes)
      (SubmittingStage.success ev0)) }

/-- A state in the terminal error stage. -/
def stErr : VoteState := { st1 with stage := SigningStage.error "boom" }

/-- A state offering an empty signer list. -/
def stSel : VoteState := { st1 with stage := SigningStage.selectAccount [] }

/-- A state in `EnterBalance` with a previously chosen balance of 7. -/
def st10 : VoteState := { st1 with balance := 7 }

/-- Configuration for `st1` (no task in flight). -/
def cfg1 : Config := ⟨st1, []⟩

/-- Configuration for `st2` (account fetch in flight). -/
def cfg2 : Config := ⟨st2, [Task.getAccounts]⟩

/-- Configuration for `st3`. -/
def cfg3 : Config := ⟨st3, []⟩

/-- Configuration for `st4` (signing task in flight). -/
def cfg4 : Config := ⟨st4, [Task.signingFor acct0]⟩

/-- Configuration for `st5`. -/
def cfg5 : Config := ⟨st5, []⟩

/-- Configuration for `st6` (submission in flight). -/
def cfg6 : Config := ⟨st6, [Task.submitExt ext0]⟩

/-- Configuration for `st7`. -/
def cfg7 : Config := ⟨st7, []⟩

/-! ## Helper lemmas -/

/-- Every character produced for a nibble is a lower-case hex digit. -/
theorem is_hex_digit_hex_digit_char : ∀ k < 16, is_hex_digit (hex_digit_char k) = true := by
  decide

/-- Every character produced by `hex_chars` is a lower-case hex digit. -/
theorem hex_chars_all_hex : ∀ (bs : List Nat), ∀ c ∈ hex_chars bs, is_hex_digit c = true := by
  intro bs
  induction bs with
  | nil => intro c hc; simp [hex_chars] at hc
  | cons b bs ih =>
    intro c hc
    simp only [hex_chars, List.mem_cons] at hc
    rcases hc with h | h | h
    · exact h ▸ is_hex_digit_hex_digit_char _ (Nat.mod_lt _ (by decide))
    · exact h ▸ is_hex_digit_hex_digit_char _ (Nat.mod_lt _ (by decide))
    · exact ih c h

/-! ## C1 — shape of the external-signer payload -/

/-- C1: every payload built for the external signer is a JSON object with
exactly the twelve fields `specVersion, transactionVersion, address, blockHash,
blockNumber, era, genesisHash, method, nonce, signedExtensions, tip, version`
(in the source's order), where `version` is the number `4`, `blockNumber` is
the literal string `"0x00000000"`, `era` is the hex rendering of the immortal
era encoding (i.e. `"0x00"`), and the `blockHash` mortality checkpoint equals
the `genesisHash` field. -/
theorem signer_payload_shape_c1 (call_data : List Nat) (api : OnlineClient)
    (account_nonce : Nat) (account_address : String) :
    (signing_payload call_data api account_nonce account_address).map Prod.fst =
      ["specVersion", "transactionVersion", "address", "blockHash", "blockNumber",
       "era", "genesisHash", "method", "nonce", "signedExtensions", "tip", "version"] ∧
    (signing_payload call_data api account_nonce account_address).lookup "version" =
      some (JsonVal.num 4) ∧
    (signing_payload call_data api account_nonce account_address).lookup "blockNumber" =
      some (JsonVal.str "0x00000000") ∧
    (signing_payload call_data api account_nonce account_address).lookup "era" =
      some (JsonVal.str (to_hex (era_encode Era.immortal))) ∧
    to_hex (era_encode Era.immortal) = "0x00" ∧
    (signing_payload call_data api account_nonce account_address).lookup "blockHash" =
      (signing_payload call_data api account_nonce account_address).lookup "genesisHash" :=
  ⟨rfl, rfl, rfl, rfl, rfl, rfl⟩

/-! ## C2 — integer fields are plain big-endian hex, the rest SCALE-encoded -/

/-- C2: for every `u64` nonce and every chain identity, the payload renders the
nonce as `0x` followed by exactly 16 hex digits of the nonce's 8-byte
big-endian representation (whose big-endian value is the nonce again); spec
version and transaction version are likewise hex of their plain big-endian
bytes; whereas tip, era and genesis hash go through their SCALE/compact
encodings before hex rendering — for tip 0 this yields the hex of
`compact(0u128)`, `"0x00"`. -/
theorem payload_integer_rendering_c2 (call_data : List Nat) (api : OnlineClient)
    (account_nonce : Nat) (account_address : String) (h64 : account_nonce < 2 ^ 64) :
    (signing_payload call_data api account_nonce account_address).lookup "nonce" =
      some (JsonVal.str (to_hex (u64_be_bytes account_nonce))) ∧
    to_hex (u64_be_bytes account_nonce) =
      "0x" ++ String.mk (hex_chars (u64_be_bytes account_nonce)) ∧
    (u64_be_bytes account_nonce).length = 8 ∧
    (hex_chars (u64_be_bytes account_nonce)).length = 16 ∧
    (∀ c ∈ hex_chars (u64_be_bytes account_nonce), is_hex_digit c = true) ∧
    be_value (u64_be_bytes account_nonce) = account_nonce ∧
    (signing_payload call_data api account_nonce account_address).lookup "specVersion" =
      some (JsonVal.str (to_hex (u32_be_bytes api.spec_version))) ∧
    (signing_payload call_data api account_nonce account_address).lookup "transactionVersion" =
      some (JsonVal.str (to_hex (u32_be_bytes api.transaction_version))) ∧
    (signing_payload call_data api account_nonce account_address).lookup "tip" =
      some (JsonVal.str (to_hex (compact_u128_encode 0))) ∧
    to_hex (compact_u128_encode 0) = "0x00" ∧
    (signing_payload call_data api account_nonce account_address).lookup "era" =
      some (JsonVal.str (to_hex (era_encode Era.immortal))) ∧
    (signing_payload call_data api account_nonce account_address).lookup "genesisHash" =
      some (JsonVal.str (to_hex (h256_encode api.genesis_hash))) := by
  refine ⟨rfl, rfl, rfl, rfl, hex_chars_all_hex _, ?_, rfl, rfl, rfl, rfl, rfl, rfl⟩
  simp only [u64_be_bytes, be_value, List.foldl]
  omega

/-- Witness for C2 at nonce 5: the hypothesis `5 < 2 ^ 64` is discharged and the
nonce field evaluates to the 16-hex-digit rendering. -/
theorem payload_integer_rendering_c2_witness :
    (5 < 2 ^ 64) ∧
    (signing_payload [] client0 5 "5GrwAlice").lookup "nonce" =
      some (JsonVal.str (to_hex (u64_be_bytes 5))) ∧
    to_hex (u64_be_bytes 5) = "0x0000000000000005" :=
  ⟨by decide, (payload_integer_rendering_c2 [] client0 5 "5GrwAlice" (by decide)).1, by decide⟩

/-! ## C5 — finalization does not imply application-level success -/

/-- C5: applied to the events of the finalized block, the submission pipeline
returns the error rendered as `"ExtrinsicSuccess not found in events"` whenever
no event decodes as `System.ExtrinsicSuccess`, and returns the first
`ExtrinsicSuccess` event when at least one is present. -/
theorem finalized_success_extraction_c5 :
    (∀ events : List ChainEvent, (∀ e ∈ events, e.is_success = false) →
      extrinsic_success_from_finalized_events events =
        Except.error "ExtrinsicSuccess not found in events") ∧
    (∀ (pre rest : List ChainEvent) (ev : ExtrinsicSuccess),
      (∀ e ∈ pre, e.is_success = false) →
      extrinsic_success_from_finalized_events
          (pre ++ ChainEvent.extrinsicSuccess ev :: rest) = Except.ok ev) := by
  constructor
  · intro events hnone
    have hfind : ∀ es : List ChainEvent, (∀ e ∈ es, e.is_success = false) →
        find_first_extrinsic_success es = none := by
      intro es
      induction es with
      | nil => intro _; rfl
      | cons e es ih =>
        intro h
        cases e with
        | extrinsicSuccess ev => exact absurd (h _ (List.mem_cons_self _ _)) (by simp [ChainEvent.is_success])
        | other name =>
          simpa [find_first_extrinsic_success] using
            ih (fun e he => h e (List.mem_cons_of_mem _ he))
    simp [extrinsic_success_from_finalized_events, hfind events hnone]
  · intro pre rest ev hnone
    have hfind : ∀ ps : List ChainEvent, (∀ e ∈ ps, e.is_success = false) →
        find_first_extrinsic_success (ps ++ ChainEvent.extrinsicSuccess ev :: rest) = some ev := by
      intro ps
      induction ps with
      | nil => intro _; rfl
      | cons e ps ih =>
        intro h
        cases e with
        | extrinsicSuccess ev2 => exact absurd (h _ (List.mem_cons_self _ _)) (by simp [ChainEvent.is_success])
        | other name =>
          simpa [find_first_extrinsic_success] using
            ih (fun e he => h e (List.mem_cons_of_mem _ he))
    simp [extrinsic_success_from_finalized_events, hfind pre hnone]

/-- Witness for C5: a finalized block with no success event yields the error;
one with two success events yields the first. -/
theorem finalized_success_extraction_c5_witness :
    extrinsic_success_from_finalized_events [ChainEvent.other "Balances.Withdraw"] =
      Except.error "ExtrinsicSuccess not found in events" ∧
    extrinsic_success_from_finalized_events
        [ChainEvent.other "Balances.Withdraw", ChainEvent.extrinsicSuccess ⟨3⟩,
         ChainEvent.extrinsicSuccess ⟨9⟩] = Except.ok ⟨3⟩ :=
  ⟨finalized_success_extraction_c5.1 [ChainEvent.other "Balances.Withdraw"] (by decide),
   finalized_success_extraction_c5.2 [ChainEvent.other "Balances.Withdraw"]
     [ChainEvent.extrinsicSuccess ⟨9⟩] ⟨3⟩ (by decide)⟩

/-! ## C6 — what actually makes assembly fail

The spec claims assembly fails with an `AssemblyError` exactly when the
returned signature's scheme is incompatible with the signer's declared key
type. The code performs no such check: the `ty` field of `Account` is never
read on the signing path; the only failure is `MultiSignature` decoding. -/

/-- C6 counterexample: the signer `acct0` declares `"sr25519"`, the returned
bytes decode to an ed25519 `MultiSignature` (scheme-mismatched), yet assembly
proceeds and produces `ReceivedSignature` with a `SignedExtrinsic` — no
`AssemblyError`, no `Error` stage. -/
theorem scheme_mismatch_assembly_proceeds_c6 :
    acct0.ty = "sr25519" ∧
    MultiSignature.scheme (MultiSignature.ed25519 (List.replicate 64 7)) = "ed25519" ∧
    signing_task_finish acct0.address pex0 (0 :: List.replicate 64 7) =
      Msg.receivedSignature (MultiSignature.ed25519 (List.replicate 64 7))
        (sign_with_address_and_signature pex0 acct0.address
          (MultiSignature.ed25519 (List.replicate 64 7))) := by
  refine ⟨rfl, rfl, ?_⟩
  decide

/-- C6 (amended): assembly of the signed extrinsic fails if and only if the
returned signature bytes do not decode as a `MultiSignature`; the failure is
the collapsed error `"MultiSignature Decoding"`, whose delivery puts the
session in the `Error` stage. No comparison of the signature's scheme with the
signer's declared key type is performed, so a well-formed signature of a
different scheme still proceeds to a `SignedExtrinsic`. -/
theorem assembly_decode_only_c6 (acct : Account) (p : PartialExtrinsic)
    (signature_bytes : List Nat) :
    (decode_multi_signature signature_bytes = none →
      signing_task_finish acct.address p signature_bytes =
        Msg.error "MultiSignature Decoding") ∧
    (∀ ms, decode_multi_signature signature_bytes = some ms →
      signing_task_finish acct.address p signature_bytes =
        Msg.receivedSignature ms (sign_with_address_and_signature p acct.address ms)) ∧
    (∀ s : VoteState, update s (Msg.error "MultiSignature Decoding") =
      some ({ s with stage := SigningStage.error "MultiSignature Decoding" }, [])) := by
  refine ⟨?_, ?_, fun s => rfl⟩
  · intro hnone
    simp [signing_task_finish, hnone]
  · intro ms hsome
    simp [signing_task_finish, hsome]

/-- Witness for the amended C6: malformed bytes collapse to the decoding error,
well-formed bytes proceed to assembly. -/
theorem assembly_decode_only_c6_witness :
    signing_task_finish acct0.address pex0 [9, 9] = Msg.error "MultiSignature Decoding" ∧
    signing_task_finish acct0.address pex0 (1 :: List.replicate 64 2) =
      Msg.receivedSignature (MultiSignature.sr25519 (List.replicate 64 2))
        (sign_with_address_and_signature pex0 acct0.address
          (MultiSignature.sr25519 (List.replicate 64 2))) :=
  ⟨(assembly_decode_only_c6 acct0 pex0 [9, 9]).1 rfl,
   (assembly_decode_only_c6 acct0 pex0 (1 :: List.replicate 64 2)).2.1
     (MultiSignature.sr25519 (List.replicate 64 2)) (by decide)⟩

/-! ## C7 — out-of-range signer index -/

/-- C7: selecting a signer index at or past the end of the offered list makes
the handler panic on the `unwrap` of the missing entry (modelled as `none`):
no successor state is produced, so no session state reachable from
`SelectAccount` is mutated — it is a programming-contract violation, not a
silent no-op (`some (s, [])`) and not a user-facing `Error` stage. -/
theorem out_of_range_signer_c7 (s : VoteState) (accounts : List Account) (i : Nat)
    (hstage : s.stage = SigningStage.selectAccount accounts)
    (hlen : accounts.length ≤ i) :
    update s (Msg.signWithAccount i) = none := by
  simp [update, hstage, List.getElem?_eq_none hlen]

/-- Witness for C7: index 0 into an empty signer list panics. -/
theorem out_of_range_signer_c7_witness :
    update stSel (Msg.signWithAccount 0) = none :=
  out_of_range_signer_c7 stSel [] 0 rfl (by decide)

/-! ## C8 — the error transition changes only the stage -/

/-- C8: handling `Error(e)` in any session state sets the stage to `Error` and
leaves every other field — message, conviction, balance, the cached call-data
bytes, the online client handle and the finalized-blocks list — unchanged, and
dispatches no task. -/
theorem error_transition_frame_c8 (s : VoteState) (e : String) :
    update s (Msg.error e) = some ({ s with stage := SigningStage.error e }, []) :=
  rfl

/-! ## C10 — unparsable balance input falls back to 100 -/

/-- C10: for every `ChangeBalance` input that does not parse as a `u128`
(including the empty string), the handler silently sets the balance to the
default 100 and re-encodes the vote call with balance `100 × 10^12`; the
resulting state differs from the previous one only in `balance` and
`vote_call_bytes` (in particular no error stage is entered), and the previous
balance is overwritten. -/
theorem unparsable_balance_default_c10 (s : VoteState) (client : OnlineClient)
    (input : String) (hc : s.online_client = some client)
    (hp : parse_u128 input = none) :
    update s (Msg.changeBalance input) =
      some ({ s with
                balance := 100,
                vote_call_bytes :=
                  CallBytes.voteCall 275 s.conviction.to_value
                    (100 * 1000000000000 % 2 ^ 128) }, []) := by
  simp [update, set_vote, hc, hp]

/-- Witness for C10: the empty string does not parse; from a state with
balance 7 the handler resets the balance to 100 and re-encodes the vote with
`100 × 10^12 = 100000000000000`. -/
theorem unparsable_balance_default_c10_witness :
    parse_u128 "" = none ∧
    update st10 (Msg.changeBalance "") =
      some ({ st10 with
                balance := 100,
                vote_call_bytes := CallBytes.voteCall 275 129 100000000000000 }, []) :=
  ⟨rfl, unparsable_balance_default_c10 st10 client0 "" rfl rfl⟩

/-! ## The reachability invariant -/

/-- The invariant holds in the initial configuration. -/
theorem inv_init : Inv initConfig := ⟨rfl, rfl⟩

/-- The invariant is preserved by every step. -/
theorem inv_step {c c2 : Config} (hinv : Inv c) (hs : Step c c2) : Inv c2 := by
  cases hs with
  | user m s2 ts hview hupd =>
    cases m with
    | error e => simp [viewEnabled] at hview
    | onlineClientCreated client => simp [viewEnabled] at hview
    | receivedAccounts accounts => simp [viewEnabled] at hview
    | receivedSignature sig ext => simp [viewEnabled] at hview
    | extrinsicFinalized ev => simp [viewEnabled] at hview
    | extrinsicFailed e => simp [viewEnabled] at hview
    | subscribeFinalizedBlock => simp [viewEnabled] at hview
    | pushFinalizedBlock b => simp [viewEnabled] at hview
    | changeMessage msg =>
      rcases hstage : c.st.stage with e | _ | _ | _ | _ | accounts | a | ⟨a, sg, hx, sub⟩ <;>
        simp [viewEnabled, hstage] at hview
      simp only [Inv, hstage] at hinv
    | changeBalance input =>
      rcases hstage : c.st.stage with e | _ | _ | _ | _ | accounts | a | ⟨a, sg, hx, sub⟩ <;>
        simp [viewEnabled, hstage] at hview
      simp only [Inv, hstage] at hinv
      obtain ⟨hcs, htasks⟩ := hinv
      obtain ⟨cl, hcl⟩ := Option.isSome_iff_exists.mp hcs
      simp only [update, set_vote, hcl, Option.map_some'] at hupd
      simp only [Option.some.injEq, Prod.mk.injEq] at hupd
      obtain ⟨rfl, rfl⟩ := hupd
      simp [Inv, hstage, hcl, htasks]
    | changeConviction cv =>
      rcases hstage : c.st.stage with e | _ | _ | _ | _ | accounts | a | ⟨a, sg, hx, sub⟩ <;>
        simp [viewEnabled, hstage] at hview
      simp only [Inv, hstage] at hinv
      obtain ⟨hcs, htasks⟩ := hinv
      obtain ⟨cl, hcl⟩ := Option.isSome_iff_exists.mp hcs
      simp only [update, set_vote, hcl, Option.map_some'] at hupd
      simp only [Option.some.injEq, Prod.mk.injEq] at hupd
      obtain ⟨rfl, rfl⟩ := hupd
      simp [Inv, hstage, hcl, htasks]
    | requestAccounts =>
      rcases hstage : c.st.stage with e | _ | _ | _ | _ | accounts | a | ⟨a, sg, hx, sub⟩ <;>
        simp [viewEnabled, hstage] at hview
      · simp only [Inv, hstage] at hinv
      · simp only [Inv, hstage] at hinv
        obtain ⟨hcs, htasks⟩ := hinv
        simp only [update, Option.some.injEq, Prod.mk.injEq] at hupd
        obtain ⟨rfl, rfl⟩ := hupd
        simp [Inv, hcs, htasks]
    | signWithAccount i =>
      rcases hstage : c.st.stage with e | _ | _ | _ | _ | accounts | a | ⟨a, sg, hx, sub⟩ <;>
        simp [viewEnabled, hstage] at hview
      simp only [Inv, hstage] at hinv
      obtain ⟨hcs, htasks⟩ := hinv
      obtain ⟨cl, hcl⟩ := Option.isSome_iff_exists.mp hcs
      simp only [update, hstage, List.getElem?_eq_getElem hview, hcl,
        Option.some.injEq, Prod.mk.injEq] at hupd
      obtain ⟨rfl, rfl⟩ := hupd
      simp [Inv, hcl, htasks]
    | submitSigned =>
      rcases hstage : c.st.stage with e | _ | _ | _ | _ | accounts | a | ⟨a, sg, hx, sub⟩ <;>
        simp [viewEnabled, hstage] at hview
      rcases sub with ext | _ | ev | er <;> simp at hview
      simp only [Inv, hstage] at hinv
      obtain ⟨hcs, htasks⟩ := hinv
      simp only [update, hstage, Option.some.injEq, Prod.mk.injEq] at hupd
      obtain ⟨rfl, rfl⟩ := hupd
      refine ⟨hcs, ext, ?_⟩
      simp [htasks]
  | task t m s2 ts hmem hmsg hupd =>
    rcases hstage : c.st.stage with e | _ | _ | _ | _ | accounts | a | ⟨a, sg, hx, sub⟩ <;>
      simp only [Inv, hstage] at hinv
    · -- stage `Error`: no task is in flight
      rw [hinv] at hmem
      exact absurd hmem (List.not_mem_nil t)
    · -- stage `CreatingOnlineClient`: the client-creation task completes
      obtain ⟨hcl, htasks⟩ := hinv
      rw [htasks] at hmem
      have ht : t = Task.createClient := by simpa using hmem
      subst ht
      cases m <;> simp [taskMsg] at hmsg
      · -- completion `Error`
        simp only [update, Option.some.injEq, Prod.mk.injEq] at hupd
        obtain ⟨rfl, rfl⟩ := hupd
        simp [Inv, htasks]
      · -- completion `OnlineClientCreated`
        simp only [update, set_vote, Option.map_some'] at hupd
        simp only [Option.some.injEq, Prod.mk.injEq] at hupd
        obtain ⟨rfl, rfl⟩ := hupd
        simp [Inv, htasks]
    · -- stage `EnterBalance`: no task is in flight
      rw [hinv.2] at hmem
      exact absurd hmem (List.not_mem_nil t)
    · -- stage `RequestingAccounts`: the account-fetch task completes
      obtain ⟨hcs, htasks⟩ := hinv
      rw [htasks] at hmem
      have ht : t = Task.getAccounts := by simpa using hmem
      subst ht
      cases m <;> simp [taskMsg] at hmsg
      · -- completion `Error`
        simp only [update, Option.some.injEq, Prod.mk.injEq] at hupd
        obtain ⟨rfl, rfl⟩ := hupd
        simp [Inv, htasks]
      · -- completion `ReceivedAccounts`
        simp only [update, Option.some.injEq, Prod.mk.injEq] at hupd
        obtain ⟨rfl, rfl⟩ := hupd
        simp [Inv, hcs, htasks]
    · -- stage `SelectAccount`: no task is in flight
      rw [hinv.2] at hmem
      exact absurd hmem (List.not_mem_nil t)
    · -- stage `Signing a`: the signing task for `a` completes
      obtain ⟨hcs, htasks⟩ := hinv
      rw [htasks] at hmem
      have ht : t = Task.signingFor a := by simpa using hmem
      subst ht
      cases m <;> simp [taskMsg] at hmsg
      · -- completion `Error`
        simp only [update, Option.some.injEq, Prod.mk.injEq] at hupd
        obtain ⟨rfl, rfl⟩ := hupd
        simp [Inv, htasks]
      · -- completion `ReceivedSignature`
        simp only [update, hstage, Option.some.injEq, Prod.mk.injEq] at hupd
        obtain ⟨rfl, rfl⟩ := hupd
        simp [Inv, hcs, htasks]
    · -- stage `SigningSuccess`
      obtain ⟨hcs, hrest⟩ := hinv
      rcases sub with ext | _ | ev | er
      · -- substage `Initial`: no task is in flight
        have htasks : c.tasks = [] := hrest
        rw [htasks] at hmem
        exact absurd hmem (List.not_mem_nil t)
      · -- substage `Submitting`: the submission task completes
        have h2 : ∃ ex, c.tasks = [Task.submitExt ex] := hrest
        obtain ⟨ex, htasks⟩ := h2
        rw [htasks] at hmem
        have ht : t = Task.submitExt ex := by simpa using hmem
        subst ht
        cases m <;> simp [taskMsg] at hmsg
        · -- completion `ExtrinsicFinalized`
          simp only [update, hstage, Option.some.injEq, Prod.mk.injEq] at hupd
          obtain ⟨rfl, rfl⟩ := hupd
          simp [Inv, hcs, htasks]
        · -- completion `ExtrinsicFailed`
          simp only [update, hstage, Option.some.injEq, Prod.mk.injEq] at hupd
          obtain ⟨rfl, rfl⟩ := hupd
          simp [Inv, hcs, htasks]
      · -- substage `Success`: no task is in flight
        have htasks : c.tasks = [] := hrest
        rw [htasks] at hmem
        exact absurd hmem (List.not_mem_nil t)
      · -- substage `Error`: no task is in flight
        have htasks : c.tasks = [] := hrest
        rw [htasks] at hmem
        exact absurd hmem (List.not_mem_nil t)

/-- Every reachable configuration satisfies the invariant. -/
theorem reachable_inv {c : Config} (h : Reachable c) : Inv c := by
  induction h with
  | init => exact inv_init
  | step _ hs ih => exact inv_step ih hs

/-! ## Reaching the concrete trace -/

set_option maxRecDepth 4096 in
/-- `cfg1` is reachable: the client-creation task completes. -/
theorem reach1 : Reachable cfg1 :=
  Reachable.step Reachable.init
    (Step.task Task.createClient (Msg.onlineClientCreated client0) st1 []
      (by decide) rfl (by decide))

set_option maxRecDepth 4096 in
/-- `cfg2` is reachable: the user requests the account list. -/
theorem reach2 : Reachable cfg2 :=
  Reachable.step reach1
    (Step.user Msg.requestAccounts st2 [Task.getAccounts] rfl (by decide))

set_option maxRecDepth 4096 in
/-- `cfg3` is reachable: the account-fetch task delivers `[acct0]`. -/
theorem reach3 : Reachable cfg3 :=
  Reachable.step reach2
    (Step.task Task.getAccounts (Msg.receivedAccounts [acct0]) st3 []
      (by decide) rfl (by decide))

set_option maxRecDepth 4096 in
/-- `cfg4` is reachable: the user picks signer 0. -/
theorem reach4 : Reachable cfg4 :=
  Reachable.step reach3
    (Step.user (Msg.signWithAccount 0) st4 [Task.signingFor acct0] (by decide) (by decide))

set_option maxRecDepth 4096 in
/-- `cfg5` is reachable: the signing task delivers the signature. -/
theorem reach5 : Reachable cfg5 :=
  Reachable.step reach4
    (Step.task (Task.signingFor acct0) (Msg.receivedSignature sig0 ext0) st5 []
      (by decide) rfl (by decide))

set_option maxRecDepth 4096 in
/-- `cfg6` is reachable: the user submits the signed extrinsic. -/
theorem reach6 : Reachable cfg6 :=
  Reachable.step reach5
    (Step.user Msg.submitSigned st6 [Task.submitExt ext0] rfl (by decide))

set_option maxRecDepth 4096 in
/-- The submission task finalizing steps `cfg6` to `cfg7`. -/
theorem step_cfg6_cfg7 : Step cfg6 cfg7 :=
  Step.task (Task.submitExt ext0) (Msg.extrinsicFinalized ev0) st7 []
    (by decide) rfl (by decide)

/-! ## C9 — client-dependent operations are guarded by the machine itself -/

/-- C9: in every configuration reachable from the initial one (stage
`CreatingOnlineClient`, no client) via the message-step relation, whenever one
of the client-dependent re-encoding messages (`ChangeBalance`,
`ChangeConviction`, `ChangeMessage`) can actually be emitted by the rendered
view, the online client exists — so the handler's `unwrap` of the client (the
panicking branch of `set_vote`/`set_message`) is unreachable and the update
succeeds. -/
theorem client_guard_c9 :
    ∀ c : Config, Reachable c → ∀ m : Msg,
      client_dependent_change m = true → viewEnabled c.st m = true →
      c.st.online_client.isSome = true ∧ (update c.st m).isSome = true := by
  intro c hr m hdep hview
  have hinv := reachable_inv hr
  cases m <;> simp [client_dependent_change] at hdep
  case changeMessage msg =>
    rcases hstage : c.st.stage with e | _ | _ | _ | _ | accounts | a | ⟨a, sg, hx, sub⟩ <;>
      simp [viewEnabled, hstage] at hview
    simp only [Inv, hstage] at hinv
  case changeBalance input =>
    rcases hstage : c.st.stage with e | _ | _ | _ | _ | accounts | a | ⟨a, sg, hx, sub⟩ <;>
      simp [viewEnabled, hstage] at hview
    simp only [Inv, hstage] at hinv
    obtain ⟨cl, hcl⟩ := Option.isSome_iff_exists.mp hinv.1
    exact ⟨hinv.1, by simp [update, set_vote, hcl]⟩
  case changeConviction cv =>
    rcases hstage : c.st.stage with e | _ | _ | _ | _ | accounts | a | ⟨a, sg, hx, sub⟩ <;>
      simp [viewEnabled, hstage] at hview
    simp only [Inv, hstage] at hinv
    obtain ⟨cl, hcl⟩ := Option.isSome_iff_exists.mp hinv.1
    exact ⟨hinv.1, by simp [update, set_vote, hcl]⟩

/-- Witness for C9 at the reachable configuration `cfg1` (stage
`EnterBalance`): the balance input is enabled, the client exists, and the
update succeeds. -/
theorem client_guard_c9_witness :
    cfg1.st.online_client.isSome = true ∧
    (update cfg1.st (Msg.changeBalance "42")).isSome = true :=
  client_guard_c9 cfg1 reach1 (Msg.changeBalance "42") rfl rfl

/-! ## C3 — stale signatures are rejected -/

/-- C3: delivering `ReceivedSignature` transitions the session (to
`SigningSuccess`, keyed by the signer of the current `Signing` stage) exactly
when the session is in a `Signing` state; in every other stage the handler
leaves the state unchanged; and in every reachable configuration an in-flight
signing task for account `a` can only coexist with the stage `Signing a` — so
a signature can never be applied in a `Signing` state for a different signer
than the one of the in-flight request. -/
theorem stale_signature_rejection_c3 :
    (∀ (s : VoteState) (a : Account) (sig : MultiSignature) (ext : SubmittableExtrinsic),
      s.stage = SigningStage.signing a →
      update s (Msg.receivedSignature sig ext) =
        some ({ s with stage := (SigningStage.signingSuccess a sig (to_hex ext.wire_bytes)
                  (SubmittingStage.initial ext)) }, [])) ∧
    (∀ (s : VoteState) (sig : MultiSignature) (ext : SubmittableExtrinsic),
      (∀ a, s.stage ≠ SigningStage.signing a) →
      update s (Msg.receivedSignature sig ext) = some (s, [])) ∧
    (∀ c : Config, Reachable c → ∀ a : Account,
      Task.signingFor a ∈ c.tasks → c.st.stage = SigningStage.signing a) := by
  refine ⟨?_, ?_, ?_⟩
  · intro s a sig ext hstage
    simp [update, hstage]
  · intro s sig ext hnot
    rcases hstage : s.stage with e | _ | _ | _ | _ | accounts | a | ⟨a, sg, hx, sub⟩ <;>
      simp [update, hstage]
    exact absurd hstage (hnot a)
  · intro c hr a hmem
    have hinv := reachable_inv hr
    rcases hstage : c.st.stage with e | _ | _ | _ | _ | accounts | b | ⟨b, sg, hx, sub⟩ <;>
      simp only [Inv, hstage] at hinv
    · rw [hinv] at hmem
      exact absurd hmem (List.not_mem_nil _)
    · rw [hinv.2] at hmem
      simp at hmem
    · rw [hinv.2] at hmem
      exact absurd hmem (List.not_mem_nil _)
    · rw [hinv.2] at hmem
      simp at hmem
    · rw [hinv.2] at hmem
      exact absurd hmem (List.not_mem_nil _)
    · rw [hinv.2] at hmem
      have hb : Task.signingFor a = Task.signingFor b := by simpa using hmem
      exact congrArg SigningStage.signing (Task.signingFor.inj hb).symm
    · rcases sub with ext | _ | ev | er
      · have htasks : c.tasks = [] := hinv.2
        rw [htasks] at hmem
        exact absurd hmem (List.not_mem_nil _)
      · have h2 : ∃ ex, c.tasks = [Task.submitExt ex] := hinv.2
        obtain ⟨ex, htasks⟩ := h2
        rw [htasks] at hmem
        simp at hmem
      · have htasks : c.tasks = [] := hinv.2
        rw [htasks] at hmem
        exact absurd hmem (List.not_mem_nil _)
      · have htasks : c.tasks = [] := hinv.2
        rw [htasks] at hmem
        exact absurd hmem (List.not_mem_nil _)

set_option maxRecDepth 4096 in
/-- Witness for C3: in stage `Signing acct0` the signature is applied; in the
`Error` stage it is discarded unchanged; and in the reachable configuration
`cfg4` the in-flight signing task's account matches the stage. -/
theorem stale_signature_rejection_c3_witness :
    update st4 (Msg.receivedSignature sig0 ext0) = some (st5, []) ∧
    update stErr (Msg.receivedSignature sig0 ext0) = some (stErr, []) ∧
    cfg4.st.stage = SigningStage.signing acct0 :=
  ⟨stale_signature_rejection_c3.1 st4 acct0 sig0 ext0 rfl,
   stale_signature_rejection_c3.2.1 stErr sig0 ext0
     (by intro a h; simp [stErr, st1] at h),
   stale_signature_rejection_c3.2.2 cfg4 reach4 acct0 (by decide)⟩

/-! ## C4 — submission is single-shot -/

/-- C4: `SubmitSigned` has an effect only when the submitting stage is
`Initial` — then the signed extrinsic is moved out into the dispatched
submission task and the stage becomes `Submitting`; in every other state the
handler changes nothing and dispatches nothing; and along every reachable
step, once the submitting stage has moved past `Initial` it stays past
`Initial`, so the stage never returns to `Initial` and a second submission of
the moved-out signed extrinsic cannot be constructed. -/
theorem single_shot_submission_c4 :
    (∀ s : VoteState,
      (∀ a sig hexstr e, s.stage ≠
        SigningStage.signingSuccess a sig hexstr (SubmittingStage.initial e)) →
      update s Msg.submitSigned = some (s, [])) ∧
    (∀ (s : VoteState) (a : Account) (sig : MultiSignature) (hexstr : String)
        (e : SubmittableExtrinsic),
      s.stage = SigningStage.signingSuccess a sig hexstr (SubmittingStage.initial e) →
      update s Msg.submitSigned =
        some ({ s with stage := (SigningStage.signingSuccess a sig hexstr
                  SubmittingStage.submitting) }, [Task.submitExt e])) ∧
    (∀ c c2 : Config, Reachable c → past_initial c.st → Step c c2 →
      past_initial c2.st) := by
  refine ⟨?_, ?_, ?_⟩
  · intro s hnot
    rcases hstage : s.stage with e | _ | _ | _ | _ | accounts | a | ⟨a, sg, hx, sub⟩ <;>
      simp [update, hstage]
    rcases sub with ext | _ | ev | er <;> simp
    exact absurd hstage (hnot a sg hx ext)
  · intro s a sig hexstr e hstage
    simp [update, hstage]
  · intro c c2 hr hpast hs
    have hinv := reachable_inv hr
    obtain ⟨a, sg, hx, sub, hstage, hnotinit⟩ := hpast
    simp only [Inv, hstage] at hinv
    cases hs with
    | user m s2 ts hview hupd =>
      cases m <;> simp [viewEnabled, hstage] at hview
      -- only `SubmitSigned` could be enabled, and only with substage `Initial`
      rcases sub with ext | _ | ev | er
      · exact absurd rfl (hnotinit ext)
      · simp at hview
      · simp at hview
      · simp at hview
    | task t m s2 ts hmem hmsg hupd =>
      rcases sub with ext | _ | ev | er
      · exact absurd rfl (hnotinit ext)
      · have h2 : ∃ ex, c.tasks = [Task.submitExt ex] := hinv.2
        obtain ⟨ex, htasks⟩ := h2
        rw [htasks] at hmem
        have ht : t = Task.submitExt ex := by simpa using hmem
        subst ht
        cases m <;> simp [taskMsg] at hmsg
        · simp only [update, hstage, Option.some.injEq, Prod.mk.injEq] at hupd
          obtain ⟨rfl, rfl⟩ := hupd
          exact ⟨a, sg, hx, _, rfl, by intro e h; cases h⟩
        · simp only [update, hstage, Option.some.injEq, Prod.mk.injEq] at hupd
          obtain ⟨rfl, rfl⟩ := hupd
          exact ⟨a, sg, hx, _, rfl, by intro e h; cases h⟩
      · have htasks : c.tasks = [] := hinv.2
        rw [htasks] at hmem
        exact absurd hmem (List.not_mem_nil _)
      · have htasks : c.tasks = [] := hinv.2
        rw [htasks] at hmem
        exact absurd hmem (List.not_mem_nil _)

set_option maxRecDepth 4096 in
/-- Witness for C4: in the `Error` stage `SubmitSigned` is a no-op; from the
concrete `Initial` state `st5` it moves the extrinsic out into the submission
task and enters `Submitting`; and the reachable `Submitting` configuration
`cfg6` stays past `Initial` after the finalization step to `cfg7`. -/
theorem single_shot_submission_c4_witness :
    update stErr Msg.submitSigned = some (stErr, []) ∧
    update st5 Msg.submitSigned = some (st6, [Task.submitExt ext0]) ∧
    past_initial cfg7.st :=
  ⟨single_shot_submission_c4.1 stErr (by intro a sg hx e h; simp [stErr, st1] at h),
   single_shot_submission_c4.2.1 st5 acct0 sig0 (to_hex ext0.wire_bytes) ext0 rfl,
   single_shot_submission_c4.2.2 cfg6 cfg7 reach6
     ⟨acct0, sig0, to_hex ext0.wire_bytes, SubmittingStage.submitting, rfl,
      fun e h => by cases h⟩
     step_cfg6_cfg7⟩

end Ref275
